import Mathlib

/-!
Verification of the kitchenAI recipe backend against its design spec.

The development shallowly embeds the two revisions of the server:

* the two-stage LangGraph pipeline (categorize → generate) from the
  unnamed early revision, together with its `POST /api/get-recipe` and
  history handlers, and
* the single-stage "guarded" LangGraph pipeline and the authenticated
  routes (`/api/login`, `/api/history`, `/api/get-recipe`) from
  `server.js`.

The external model client is a parameter `String → Option String`
(prompt to completion, `none` for a transport error); every run also
returns the ordered list of prompts actually sent, so call counts and
ordering are provable.  JavaScript truthiness on the optional string
channel values is made explicit in `truthy`.  The persistence store is
a list of records; `jwt.verify` is a parameter `String → Option
TokenClaims` since signature checking happens outside this codebase.
-/

namespace KitchenAI

/-- JavaScript truthiness of a nullable string (`undefined`/`null`
and `""` are falsy, every other string is truthy). -/
def truthy : Option String → Bool
  | none => false
  | some s => s ≠ ""

/-- The per-channel merge function of `graphState`:
`value: (x, y) => y ? y : x`. -/
def mergeChannel (x y : Option String) : Option String :=
  if truthy y then y else x

/-- JavaScript template-literal interpolation of a nullable string
(`null` prints as "null"). -/
def jsTemplate : Option String → String
  | none => "null"
  | some s => s

/-- The shared pipeline state record of the two-stage variant:
channels `dish_name`, `category`, `recipe`, each defaulting to null. -/
structure GraphState where
  dish_name : Option String
  category : Option String
  recipe : Option String
deriving Repr, DecidableEq

/-- A partial update returned by a stage of the two-stage variant
(`none` = field absent from the returned object), merged channel-wise. -/
def applyUpdate (s u : GraphState) : GraphState where
  dish_name := mergeChannel s.dish_name u.dish_name
  category := mergeChannel s.category u.category
  recipe := mergeChannel s.recipe u.recipe

/-- JavaScript `String.prototype.trim()`: strip leading and trailing
whitespace (structural model over the character list). -/
def jsTrim (s : String) : String :=
  String.mk (((s.toList.dropWhile Char.isWhitespace).reverse.dropWhile
    Char.isWhitespace).reverse)

/-- Helper for `jsSplitSpace`: split a character list at each space,
keeping empty segments (JavaScript `split(' ')` semantics). -/
def splitSpaceAux : List Char → List Char → List (List Char)
  | [], acc => [acc.reverse]
  | c :: cs, acc =>
    if c = ' ' then acc.reverse :: splitSpaceAux cs []
    else splitSpaceAux cs (c :: acc)

/-- JavaScript `s.split(' ')`. -/
def jsSplitSpace (s : String) : List String :=
  (splitSpaceAux s.toList []).map String.mk

/-- The model client boundary: a prompt-to-completion map, `none`
standing for a transport/provider error. -/
def ModelClient := String → Option String

/-- The prompt built by `categorizationNode`. -/
def categorizePrompt (dish : String) : String :=
  "Categorize the dish \x27" ++ dish ++ "\x27 into exactly one of these categories: Veg, Non-Veg, Fast Food, Drinks. Return ONLY the category name."

/-- The prompt built by `recipeNode` of the two-stage variant. -/
def recipePrompt (dish category : String) : String :=
  "The user wants to make \x27" ++ dish ++ "\x27 (" ++ category ++ ").\n  \n  Please follow these strict formatting rules:\n  1. **Language**: Use VERY SIMPLE English. Short sentences. No hard words.\n  2. **Ingredients**: Provide them in a Markdown Table with two columns: \"Ingredient\" and \"Quantity\".\n  3. **Procedure**: Provide the steps as a numbered list. \n     - Bold the main action verbs (e.g., **Mix**, **Boil**, **Cut**).\n     - Keep steps short and easy to read.\n\n  Do not include any intro or outro text. Just the table and the steps."

/-- `appGraph.invoke({dish_name: dish})` for the two-stage workflow
(categorize, then generate).  Returns the final state (or an error when
a model call failed) together with the ordered list of prompts sent to
the model client. -/
def runTwoStage (client : ModelClient) (dish : String) :
    Except Unit GraphState × List String :=
  let s0 := applyUpdate ⟨none, none, none⟩ ⟨some dish, none, none⟩
  let p1 := categorizePrompt (jsTemplate s0.dish_name)
  match client p1 with
  | none => (Except.error (), [p1])
  | some r1 =>
    let s1 := applyUpdate s0 ⟨none, some (jsTrim r1), none⟩
    let p2 := recipePrompt (jsTemplate s1.dish_name) (jsTemplate s1.category)
    match client p2 with
    | none => (Except.error (), [p1, p2])
    | some r2 => (Except.ok (applyUpdate s1 ⟨none, none, some r2⟩), [p1, p2])

/-- The fixed refusal string of the guarded prompt. -/
def refusalMessage : String :=
  "🚫 **Security Alert:** I can only help with cooking and recipes."

/-- The prompt built by `recipeNode` of the single-stage guarded
variant (`server.js`), embedding the dish name in a delimited block. -/
def guardedPrompt (dish : String) : String :=
  "\n  You are a specialized Gourmet Chef AI.\n\n  SYSTEM INSTRUCTIONS:\n  1. Your ONLY purpose is to provide cooking recipes.\n  2. You must analyze the content inside the \"USER_REQUEST\" delimiter below.\n  3. **SAFETY CHECK:** If the content inside the delimiter is NOT a food item (e.g., it asks about code, politics, math, or hacking), you must REFUSE.\n     - Refusal Message: \"" ++ refusalMessage ++ "\"\n  4. If valid, format the output with:\n     - A Markdown Table for ingredients.\n     - Numbered list for steps.\n  5. Do NOT include any intro/outro conversation.\n\n  USER_REQUEST:\n  \"\"\"\n  " ++ dish ++ "\n  \"\"\"\n  \n  Execute the system instructions on the USER_REQUEST above.\n  "

/-- The pipeline state record of the single-stage guarded variant:
channels `dish_name` and `recipe` only. -/
structure GuardState where
  dish_name : Option String
  recipe : Option String
deriving Repr, DecidableEq

/-- Channel-wise merge for the guarded variant's state. -/
def applyGuardUpdate (s u : GuardState) : GuardState where
  dish_name := mergeChannel s.dish_name u.dish_name
  recipe := mergeChannel s.recipe u.recipe

/-- `appGraph.invoke({dish_name: dish})` for the single-stage guarded
workflow, with the prompt trace. -/
def runGuarded (client : ModelClient) (dish : String) :
    Except Unit GuardState × List String :=
  let s0 := applyGuardUpdate ⟨none, none⟩ ⟨some dish, none⟩
  let p := guardedPrompt (jsTemplate s0.dish_name)
  match client p with
  | none => (Except.error (), [p])
  | some r => (Except.ok (applyGuardUpdate s0 ⟨none, some r⟩), [p])

/-- A durable recipe document of the early (two-stage) revision: its
schema has no owner field. -/
structure RecipeDoc where
  dishName : Option String
  category : Option String
  recipe : Option String
  createdAt : Nat
deriving Repr, DecidableEq

/-- A durable recipe record of the `server.js` revision, owned by a
user via `userPhone`; `category` defaults to "Gourmet". -/
structure RecipeRecord where
  userPhone : String
  dishName : String
  category : String
  recipe : Option String
  createdAt : Nat
deriving Repr, DecidableEq

/-- Response of `POST /api/get-recipe` in the two-stage revision. -/
inductive TwoStageResp
  | badRequest (msg : String)
  | serverError (msg : String)
  | okRecipe (category recipe : Option String)
deriving Repr, DecidableEq

/-- HTTP status of a two-stage recipe response. -/
def TwoStageResp.status : TwoStageResp → Nat
  | badRequest _ => 400
  | serverError _ => 500
  | okRecipe _ _ => 200

/-- `POST /api/get-recipe` of the two-stage revision: validate the dish
by truthiness, run the workflow, persist a `RecipeDoc` from the final
state, respond with its category and recipe.  Returns the response, the
updated store and the model-call trace. -/
def getRecipeTwoStage (client : ModelClient) (dish : Option String)
    (store : List RecipeDoc) (now : Nat) :
    TwoStageResp × List RecipeDoc × List String :=
  if truthy dish = false then
    (TwoStageResp.badRequest "Dish name is required", store, [])
  else
    match runTwoStage client (jsTemplate dish) with
    | (Except.error _, tr) =>
      (TwoStageResp.serverError "Something went wrong. Check server console.",
       store, tr)
    | (Except.ok s, tr) =>
      let doc : RecipeDoc := ⟨s.dish_name, s.category, s.recipe, now⟩
      (TwoStageResp.okRecipe s.category s.recipe, store ++ [doc], tr)

/-- Response of `POST /api/get-recipe` in the guarded revision. -/
inductive GuardResp
  | badRequest (msg : String)
  | serverError (msg : String)
  | okRecipe (dishName : String) (recipe : Option String) (createdAt : Nat)
deriving Repr, DecidableEq

/-- HTTP status of a guarded recipe response. -/
def GuardResp.status : GuardResp → Nat
  | badRequest _ => 400
  | serverError _ => 500
  | okRecipe _ _ _ => 200

/-- `POST /api/get-recipe` of the guarded `server.js` revision (after
the auth middleware): validate the dish by truthiness, run the guarded
workflow, persist a `RecipeRecord` with owner `userPhone` and category
"Gourmet", respond with the dish, recipe and creation time. -/
def getRecipeGuarded (client : ModelClient) (userPhone : String)
    (dish : Option String) (store : List RecipeRecord) (now : Nat) :
    GuardResp × List RecipeRecord × List String :=
  if truthy dish = false then
    (GuardResp.badRequest "Dish name required", store, [])
  else
    match runGuarded client (jsTemplate dish) with
    | (Except.error _, tr) =>
      (GuardResp.serverError "Something went wrong.", store, tr)
    | (Except.ok s, tr) =>
      let rec0 : RecipeRecord :=
        ⟨userPhone, jsTemplate dish, "Gourmet", s.recipe, now⟩
      (GuardResp.okRecipe (jsTemplate dish) s.recipe now,
       store ++ [rec0], tr)

/-- A durable User record (`UserSchema`): `phone` is the unique key. -/
structure User where
  id : Nat
  name : String
  phone : String
deriving Repr, DecidableEq

/-- The users collection with a fresh-id counter standing for document
id generation. -/
structure UserStore where
  users : List User
  nextId : Nat
deriving Repr, DecidableEq

/-- `UserModel.findOne({phone})`: first stored user with that phone. -/
def findUserByPhone (st : UserStore) (phone : String) : Option User :=
  st.users.find? (fun u => u.phone = phone)

/-- The `/^\d{10}$/` phone check: exactly ten decimal digits. -/
def isValidPhone (phone : String) : Bool :=
  phone.length = 10 && phone.toList.all Char.isDigit

/-- The claim set signed into an auth token: `{id, phone, name}`. -/
structure TokenClaims where
  id : Nat
  phone : String
  name : String
deriving Repr, DecidableEq

/-- Response of `POST /api/login`. -/
inductive LoginResp
  | badRequest (msg : String)
  | okLogin (token : TokenClaims) (userName userPhone : String)
deriving Repr, DecidableEq

/-- HTTP status of a login response. -/
def LoginResp.status : LoginResp → Nat
  | badRequest _ => 400
  | okLogin _ _ _ => 200

/-- `POST /api/login`: validate name/phone, look the user up by phone,
create it if absent (first-write-wins), sign a token from the STORED
user's fields and answer with the stored name and phone. -/
def login (name phone : String) (st : UserStore) : LoginResp × UserStore :=
  if name = "" ∨ phone = "" then (LoginResp.badRequest "Invalid input", st)
  else if isValidPhone phone = false then
    (LoginResp.badRequest "Phone number must be exactly 10 digits", st)
  else
    match findUserByPhone st phone with
    | some u => (LoginResp.okLogin ⟨u.id, u.phone, u.name⟩ u.name u.phone, st)
    | none =>
      let u : User := ⟨st.nextId, name, phone⟩
      (LoginResp.okLogin ⟨u.id, u.phone, u.name⟩ u.name u.phone,
       ⟨st.users ++ [u], st.nextId + 1⟩)

/-- `authHeader && authHeader.split(' ')[1]`, with a falsy extracted
token treated as missing. -/
def tokenFromHeader : Option String → Option String
  | none => none
  | some h =>
    match (jsSplitSpace h).get? 1 with
    | none => none
    | some t => if t = "" then none else some t

/-- Outcome of the `authenticateToken` middleware. -/
inductive AuthOutcome
  | unauthorized
  | forbidden
  | authed (c : TokenClaims)
deriving Repr, DecidableEq

/-- The `authenticateToken` middleware: missing token → 401 path,
failed `jwt.verify` → 403 path, otherwise the decoded claims. -/
def authenticateToken (verify : String → Option TokenClaims)
    (header : Option String) : AuthOutcome :=
  match tokenFromHeader header with
  | none => AuthOutcome.unauthorized
  | some t =>
    match verify t with
    | none => AuthOutcome.forbidden
    | some c => AuthOutcome.authed c

/-- Response of `GET /api/history` in the `server.js` revision. -/
inductive HistoryResp
  | unauthorized (msg : String)
  | forbidden (msg : String)
  | okHistory (records : List RecipeRecord)
deriving Repr, DecidableEq

/-- HTTP status of a history response. -/
def HistoryResp.status : HistoryResp → Nat
  | unauthorized _ => 401
  | forbidden _ => 403
  | okHistory _ => 200

/-- `RequestModel.find({userPhone: phone}).sort({createdAt: -1})`:
the caller's records, newest first. -/
def listHistory (store : List RecipeRecord) (phone : String) :
    List RecipeRecord :=
  (store.filter (fun r => r.userPhone = phone)).mergeSort
    (fun a b => b.createdAt ≤ a.createdAt)

/-- `GET /api/history` of the `server.js` revision: auth middleware,
then the owner-scoped, newest-first listing.  The store is returned
unchanged in every branch. -/
def historyRoute (verify : String → Option TokenClaims)
    (header : Option String) (store : List RecipeRecord) :
    HistoryResp × List RecipeRecord :=
  match authenticateToken verify header with
  | AuthOutcome.unauthorized =>
    (HistoryResp.unauthorized "Access Denied: No Token Provided", store)
  | AuthOutcome.forbidden =>
    (HistoryResp.forbidden "Access Denied: Invalid Token", store)
  | AuthOutcome.authed c =>
    (HistoryResp.okHistory (listHistory store c.phone), store)

/-- C1 as the spec states it: a non-null update value always wins. -/
def C1AsStated : Prop :=
  ∀ x y : Option String, y ≠ none → mergeChannel x y = y

/-- A stubbed model client answering "Veg" to the categorize prompt and
a fixed Markdown blob to the generate prompt. -/
def vegStubClient : ModelClient := fun p =>
  if p = categorizePrompt "Paneer Tikka" then some "Veg"
  else if p = recipePrompt "Paneer Tikka" "Veg" then
    some "| Ingredient | Quantity |\n1. **Mix**"
  else none

end KitchenAI

namespace KitchenAI

/-- C1 — counterexample: the merge function uses JavaScript truthiness,
so the non-null update value `""` does NOT replace the prior value. -/
theorem C1_counterexample : ¬ C1AsStated := by
  intro h
  have hx := h (some "abc") (some "") (by simp)
  simp [mergeChannel, truthy] at hx

/-- C1 (amended): for every field of the pipeline state record, a stage
update is merged by last-TRUTHY-value-wins: a non-null, non-empty value
replaces the prior one; a null (absent) or empty-string value leaves the
prior value untouched. -/
theorem C1_merge_truthy_wins (s u : GraphState) :
    (truthy u.dish_name = true → (applyUpdate s u).dish_name = u.dish_name) ∧
    (truthy u.dish_name = false → (applyUpdate s u).dish_name = s.dish_name) ∧
    (truthy u.category = true → (applyUpdate s u).category = u.category) ∧
    (truthy u.category = false → (applyUpdate s u).category = s.category) ∧
    (truthy u.recipe = true → (applyUpdate s u).recipe = u.recipe) ∧
    (truthy u.recipe = false → (applyUpdate s u).recipe = s.recipe) := by
  refine ⟨?_, ?_, ?_, ?_, ?_, ?_⟩ <;>
    intro h <;> simp [applyUpdate, mergeChannel, h]

/-- C1 — witness: evaluating the amended merge law at concrete values. -/
theorem C1_merge_truthy_wins_witness :
    (applyUpdate ⟨some "a", some "b", some "c"⟩ ⟨some "x", none, some ""⟩).dish_name
        = some "x" ∧
    (applyUpdate ⟨some "a", some "b", some "c"⟩ ⟨some "x", none, some ""⟩).category
        = some "b" ∧
    (applyUpdate ⟨some "a", some "b", some "c"⟩ ⟨some "x", none, some ""⟩).recipe
        = some "c" :=
  ⟨(C1_merge_truthy_wins _ _).1 (by decide),
   (C1_merge_truthy_wins _ _).2.2.2.1 (by decide),
   (C1_merge_truthy_wins _ _).2.2.2.2.2 (by decide)⟩

/-- C2: with a model client answering "Veg" for the categorize prompt
and a fixed blob for the generate prompt, `run("Paneer Tikka")` of the
two-stage variant yields category "Veg" (the trimmed stage-1 text) and
the blob verbatim as recipe, with exactly two client calls, the
categorize prompt strictly before the generate prompt. -/
theorem C2_two_stage_run (client : ModelClient) (blob : String)
    (hblob : blob ≠ "")
    (h1 : client (categorizePrompt "Paneer Tikka") = some "Veg")
    (h2 : client (recipePrompt "Paneer Tikka" "Veg") = some blob) :
    runTwoStage client "Paneer Tikka" =
      (Except.ok ⟨some "Paneer Tikka", some "Veg", some blob⟩,
       [categorizePrompt "Paneer Tikka", recipePrompt "Paneer Tikka" "Veg"]) := by
  have ht : jsTrim "Veg" = "Veg" := by decide
  simp [runTwoStage, applyUpdate, mergeChannel, truthy, jsTemplate, h1, ht, h2,
    hblob]

/-- C2 — witness: the run evaluated with the concrete stub client. -/
theorem C2_two_stage_run_witness :
    runTwoStage vegStubClient "Paneer Tikka" =
      (Except.ok ⟨some "Paneer Tikka", some "Veg",
        some "| Ingredient | Quantity |\n1. **Mix**"⟩,
       [categorizePrompt "Paneer Tikka", recipePrompt "Paneer Tikka" "Veg"]) :=
  C2_two_stage_run vegStubClient _ (by decide)
    (by simp [vegStubClient, categorizePrompt, recipePrompt])
    (by simp [vegStubClient, categorizePrompt, recipePrompt])

/-- C3: when the model client answers the fixed refusal string to the
guarded prompt, the handler responds 200 with that exact string as the
recipe and still persists a `RecipeRecord` — a refusal is a valid
completion, not a pipeline failure. -/
theorem C3_refusal_is_valid_completion (client : ModelClient)
    (userPhone dish : String) (store : List RecipeRecord) (now : Nat)
    (hdish : dish ≠ "")
    (hc : client (guardedPrompt dish) = some refusalMessage) :
    getRecipeGuarded client userPhone (some dish) store now =
      (GuardResp.okRecipe dish (some refusalMessage) now,
       store ++ [⟨userPhone, dish, "Gourmet", some refusalMessage, now⟩],
       [guardedPrompt dish]) := by
  simp [getRecipeGuarded, truthy, hdish, jsTemplate, runGuarded,
    applyGuardUpdate, mergeChannel, hc, refusalMessage]

/-- C3 — witness: a stub client that always refuses, on a non-food
input string. -/
theorem C3_refusal_witness :
    getRecipeGuarded (fun _ => some refusalMessage) "1234567890"
        (some "explain politics") [] 7 =
      (GuardResp.okRecipe "explain politics" (some refusalMessage) 7,
       [⟨"1234567890", "explain politics", "Gourmet", some refusalMessage, 7⟩],
       [guardedPrompt "explain politics"]) :=
  C3_refusal_is_valid_completion (fun _ => some refusalMessage) "1234567890"
    "explain politics" [] 7 (by decide) rfl

/-- Helper: whenever the two-stage recipe handler does not answer 200,
the store is unchanged. -/
theorem twoStageStoreUnchanged (client : ModelClient) (dish : Option String)
    (docs : List RecipeDoc) (now : Nat) (resp : TwoStageResp)
    (docs2 : List RecipeDoc) (tr : List String)
    (heq : getRecipeTwoStage client dish docs now = (resp, docs2, tr))
    (hstat : resp.status ≠ 200) : docs2 = docs := by
  unfold getRecipeTwoStage at heq
  split at heq
  · exact ((Prod.mk.injEq _ _ _ _).mp ((Prod.mk.injEq _ _ _ _).mp heq).2).1.symm
  · split at heq
    · exact ((Prod.mk.injEq _ _ _ _).mp ((Prod.mk.injEq _ _ _ _).mp heq).2).1.symm
    · exfalso
      have h1 := ((Prod.mk.injEq _ _ _ _).mp heq).1
      apply hstat
      rw [← h1]
      rfl

/-- Helper: whenever the guarded recipe handler does not answer 200,
the store is unchanged. -/
theorem guardedStoreUnchanged (client : ModelClient) (userPhone : String)
    (dish : Option String) (recs : List RecipeRecord) (now : Nat)
    (resp : GuardResp) (recs2 : List RecipeRecord) (tr : List String)
    (heq : getRecipeGuarded client userPhone dish recs now = (resp, recs2, tr))
    (hstat : resp.status ≠ 200) : recs2 = recs := by
  unfold getRecipeGuarded at heq
  split at heq
  · exact ((Prod.mk.injEq _ _ _ _).mp ((Prod.mk.injEq _ _ _ _).mp heq).2).1.symm
  · split at heq
    · exact ((Prod.mk.injEq _ _ _ _).mp ((Prod.mk.injEq _ _ _ _).mp heq).2).1.symm
    · exfalso
      have h1 := ((Prod.mk.injEq _ _ _ _).mp heq).1
      apply hstat
      rw [← h1]
      rfl

/-- C4: no partial-success state.  A model-call error at stage 1 of the
two-stage variant yields a 500 with the store unchanged and a one-entry
prompt trace (stage 2 is never attempted); and in both variants the
store gains no record unless the handler answers 200. -/
theorem C4_no_partial_success (client : ModelClient) (userPhone d : String)
    (docs : List RecipeDoc) (recs : List RecipeRecord) (now : Nat)
    (hd : d ≠ "") :
    (client (categorizePrompt d) = none →
      getRecipeTwoStage client (some d) docs now =
        (TwoStageResp.serverError "Something went wrong. Check server console.",
         docs, [categorizePrompt d])) ∧
    (∀ resp docs2 tr,
      getRecipeTwoStage client (some d) docs now = (resp, docs2, tr) →
      resp.status ≠ 200 → docs2 = docs) ∧
    (∀ resp recs2 tr,
      getRecipeGuarded client userPhone (some d) recs now = (resp, recs2, tr) →
      resp.status ≠ 200 → recs2 = recs) := by
  refine ⟨?_, ?_, ?_⟩
  · intro hfail
    simp [getRecipeTwoStage, truthy, hd, jsTemplate, runTwoStage, applyUpdate,
      mergeChannel, hfail]
  · intro resp docs2 tr heq hstat
    exact twoStageStoreUnchanged client (some d) docs now resp docs2 tr heq hstat
  · intro resp recs2 tr heq hstat
    exact guardedStoreUnchanged client userPhone (some d) recs now resp recs2 tr
      heq hstat

/-- C4 — witness: an always-failing client at a concrete dish. -/
theorem C4_no_partial_success_witness :
    getRecipeTwoStage (fun _ => none) (some "Pizza") [] 0 =
      (TwoStageResp.serverError "Something went wrong. Check server console.",
       [], [categorizePrompt "Pizza"]) :=
  (C4_no_partial_success (fun _ => none) "5550001111" "Pizza" [] [] 0
    (by decide)).1 rfl

/-- C5: a blank (falsy) dish is rejected with 400 by both revisions of
`POST /api/get-recipe`, with an empty model-call trace (the client is
never invoked) and the store unchanged. -/
theorem C5_blank_dish_rejected (client : ModelClient) (userPhone : String)
    (dish : Option String) (docs : List RecipeDoc) (recs : List RecipeRecord)
    (now : Nat) (hblank : truthy dish = false) :
    getRecipeGuarded client userPhone dish recs now =
      (GuardResp.badRequest "Dish name required", recs, []) ∧
    getRecipeTwoStage client dish docs now =
      (TwoStageResp.badRequest "Dish name is required", docs, []) := by
  constructor <;> simp [getRecipeGuarded, getRecipeTwoStage, hblank]

/-- C5 — witness: the empty-string dish. -/
theorem C5_blank_dish_rejected_witness :
    getRecipeGuarded (fun _ => some "r") "5550001111" (some "") [] 0 =
      (GuardResp.badRequest "Dish name required", [], []) ∧
    getRecipeTwoStage (fun _ => some "r") (some "") [] 0 =
      (TwoStageResp.badRequest "Dish name is required", [], []) :=
  C5_blank_dish_rejected (fun _ => some "r") "5550001111" (some "") [] [] 0
    (by decide)

/-- C9: a whitespace-only dish is truthy, so it passes the falsiness
check: the guarded handler invokes the model client and persists a
`RecipeRecord`, answering 200. -/
theorem C9_whitespace_dish_passes (client : ModelClient)
    (userPhone dish resp : String) (recs : List RecipeRecord) (now : Nat)
    (hne : dish ≠ "") (_hws : dish.toList.all Char.isWhitespace = true)
    (hc : client (guardedPrompt dish) = some resp) (hresp : resp ≠ "") :
    getRecipeGuarded client userPhone (some dish) recs now =
      (GuardResp.okRecipe dish (some resp) now,
       recs ++ [⟨userPhone, dish, "Gourmet", some resp, now⟩],
       [guardedPrompt dish]) := by
  simp [getRecipeGuarded, truthy, hne, jsTemplate, runGuarded, applyGuardUpdate,
    mergeChannel, hc, hresp]

/-- C9 — witness: the one-space dish. -/
theorem C9_whitespace_dish_passes_witness :
    getRecipeGuarded (fun _ => some "| t |") "5550001111" (some " ") [] 3 =
      (GuardResp.okRecipe " " (some "| t |") 3,
       [⟨"5550001111", " ", "Gourmet", some "| t |", 3⟩],
       [guardedPrompt " "]) :=
  C9_whitespace_dish_passes (fun _ => some "| t |") "5550001111" " " "| t |"
    [] 3 (by decide) (by decide) rfl (by decide)

/-- C6: two logins with the same valid phone and different non-empty
names return the same token (hence the same user id) both times, the
second login leaves the store untouched (first-write-wins, no name
update), and the first creates at most one User record. -/
theorem C6_register_or_login_idempotent (st0 : UserStore) (n1 n2 phone : String)
    (h1 : n1 ≠ "") (h2 : n2 ≠ "") (hp : isValidPhone phone = true) :
    ∃ u : TokenClaims,
      (login n1 phone st0).1 = LoginResp.okLogin u u.name u.phone ∧
      (login n2 phone (login n1 phone st0).2).1 =
        LoginResp.okLogin u u.name u.phone ∧
      (login n2 phone (login n1 phone st0).2).2 = (login n1 phone st0).2 ∧
      ((login n1 phone st0).2.users = st0.users ∨
        (login n1 phone st0).2.users = st0.users ++ [⟨st0.nextId, n1, phone⟩]) := by
  have hpne : phone ≠ "" := by
    intro h
    rw [h] at hp
    simp [isValidPhone] at hp
  cases hfind : findUserByPhone st0 phone with
  | some u =>
    refine ⟨⟨u.id, u.phone, u.name⟩, ?_, ?_, ?_, Or.inl ?_⟩ <;>
      simp [login, h1, h2, hpne, hp, hfind]
  | none =>
    have hfind2 : findUserByPhone
        ⟨st0.users ++ [⟨st0.nextId, n1, phone⟩], st0.nextId + 1⟩ phone =
        some ⟨st0.nextId, n1, phone⟩ := by
      unfold findUserByPhone at hfind ⊢
      simp only [List.find?_append, hfind, Option.none_or]
      simp
    have hlogin1 : login n1 phone st0 =
        (LoginResp.okLogin ⟨st0.nextId, phone, n1⟩ n1 phone,
         ⟨st0.users ++ [⟨st0.nextId, n1, phone⟩], st0.nextId + 1⟩) := by
      simp [login, h1, hpne, hp, hfind]
    have hlogin2 : login n2 phone
        ⟨st0.users ++ [⟨st0.nextId, n1, phone⟩], st0.nextId + 1⟩ =
        (LoginResp.okLogin ⟨st0.nextId, phone, n1⟩ n1 phone,
         ⟨st0.users ++ [⟨st0.nextId, n1, phone⟩], st0.nextId + 1⟩) := by
      simp [login, h2, hpne, hp, hfind2]
    refine ⟨⟨st0.nextId, phone, n1⟩, ?_, ?_, ?_, Or.inr ?_⟩ <;>
      rw [hlogin1] <;> simp [hlogin2]

/-- C6 — witness: an empty store, one phone, two different names. -/
theorem C6_register_or_login_idempotent_witness :
    ∃ u : TokenClaims,
      (login "Alice" "1234567890" ⟨[], 0⟩).1 =
        LoginResp.okLogin u u.name u.phone ∧
      (login "Bob" "1234567890" (login "Alice" "1234567890" ⟨[], 0⟩).2).1 =
        LoginResp.okLogin u u.name u.phone ∧
      (login "Bob" "1234567890" (login "Alice" "1234567890" ⟨[], 0⟩).2).2 =
        (login "Alice" "1234567890" ⟨[], 0⟩).2 ∧
      ((login "Alice" "1234567890" ⟨[], 0⟩).2.users = (⟨[], 0⟩ : UserStore).users ∨
        (login "Alice" "1234567890" ⟨[], 0⟩).2.users =
          (⟨[], 0⟩ : UserStore).users ++ [⟨(⟨[], 0⟩ : UserStore).nextId, "Alice", "1234567890"⟩]) :=
  C6_register_or_login_idempotent ⟨[], 0⟩ "Alice" "Bob" "1234567890"
    (by decide) (by decide) (by decide)

/-- C10: when a User already exists for the phone, the token is signed
with the STORED user's fields and the response carries the stored name,
not the supplied one; the store is unchanged. -/
theorem C10_stored_name_wins (st : UserStore) (name phone : String) (u : User)
    (hn : name ≠ "") (hp : isValidPhone phone = true)
    (hu : findUserByPhone st phone = some u) :
    login name phone st =
      (LoginResp.okLogin ⟨u.id, u.phone, u.name⟩ u.name u.phone, st) := by
  have hpne : phone ≠ "" := by
    intro h
    rw [h] at hp
    simp [isValidPhone] at hp
  simp [login, hn, hpne, hp, hu]

/-- C10 — witness: a stored "Alice" logging in again as "Mallory". -/
theorem C10_stored_name_wins_witness :
    login "Mallory" "1234567890" ⟨[⟨7, "Alice", "1234567890"⟩], 8⟩ =
      (LoginResp.okLogin ⟨7, "1234567890", "Alice"⟩ "Alice" "1234567890",
       ⟨[⟨7, "Alice", "1234567890"⟩], 8⟩) :=
  C10_stored_name_wins ⟨[⟨7, "Alice", "1234567890"⟩], 8⟩ "Mallory" "1234567890"
    ⟨7, "Alice", "1234567890"⟩ (by decide) (by decide) (by decide)

/-- C7: the auth middleware on the history route distinguishes a
missing token (401 response) from a failed verification (403 response),
and the store is returned unchanged in every branch — verification has
no side effect on it. -/
theorem C7_auth_failure_kinds (verify : String → Option TokenClaims)
    (header : Option String) (store : List RecipeRecord) :
    (historyRoute verify header store).2 = store ∧
    (tokenFromHeader header = none →
      historyRoute verify header store =
        (HistoryResp.unauthorized "Access Denied: No Token Provided", store) ∧
      (historyRoute verify header store).1.status = 401) ∧
    (∀ t, tokenFromHeader header = some t → verify t = none →
      historyRoute verify header store =
        (HistoryResp.forbidden "Access Denied: Invalid Token", store) ∧
      (historyRoute verify header store).1.status = 403) := by
  refine ⟨?_, ?_, ?_⟩
  · unfold historyRoute
    cases authenticateToken verify header <;> rfl
  · intro hnone
    simp [historyRoute, authenticateToken, hnone, HistoryResp.status]
  · intro t ht hv
    simp [historyRoute, authenticateToken, ht, hv, HistoryResp.status]

/-- C7 — witness: a missing header gives the 401 response, a present
header with an always-rejecting verifier gives the 403 response. -/
theorem C7_auth_failure_kinds_witness :
    historyRoute (fun _ => none) none [] =
      (HistoryResp.unauthorized "Access Denied: No Token Provided", []) ∧
    historyRoute (fun _ => none) (some "Bearer tok") [] =
      (HistoryResp.forbidden "Access Denied: Invalid Token", []) :=
  ⟨((C7_auth_failure_kinds (fun _ => none) none []).2.1 rfl).1,
   ((C7_auth_failure_kinds (fun _ => none) (some "Bearer tok") []).2.2 "tok"
     (by decide) rfl).1⟩

/-- C8: for an authenticated caller, the history route answers the
owner-scoped listing: every returned record's `userPhone` equals the
caller's phone, and the list is ordered descending by creation time. -/
theorem C8_history_scoped_sorted (verify : String → Option TokenClaims)
    (header : Option String) (store : List RecipeRecord) (c : TokenClaims)
    (hauth : authenticateToken verify header = AuthOutcome.authed c) :
    historyRoute verify header store =
      (HistoryResp.okHistory (listHistory store c.phone), store) ∧
    (∀ r ∈ listHistory store c.phone, r.userPhone = c.phone) ∧
    (listHistory store c.phone).Pairwise
      (fun a b => b.createdAt ≤ a.createdAt) := by
  refine ⟨by simp [historyRoute, hauth], ?_, ?_⟩
  · intro r hr
    rw [listHistory, List.mem_mergeSort, List.mem_filter] at hr
    simpa using hr.2
  · have hs := @List.sorted_mergeSort RecipeRecord
      (fun a b => decide (b.createdAt ≤ a.createdAt))
      (by intro a b c hab hbc; simp at *; omega)
      (by intro a b; simp [Bool.or_eq_true]; omega)
      (store.filter (fun r => r.userPhone = c.phone))
    rw [listHistory]
    exact hs.imp (by intro a b h; simpa using h)

/-- C8 — witness: a mixed-owner store with out-of-order timestamps. -/
theorem C8_history_scoped_sorted_witness :
    historyRoute (fun _ => some ⟨1, "9999999999", "Ann"⟩) (some "Bearer t")
        [⟨"9999999999", "Tea", "Gourmet", some "r1", 1⟩,
         ⟨"1111111111", "Pie", "Gourmet", some "r2", 5⟩,
         ⟨"9999999999", "Dal", "Gourmet", some "r3", 9⟩] =
      (HistoryResp.okHistory
        (listHistory
          [⟨"9999999999", "Tea", "Gourmet", some "r1", 1⟩,
           ⟨"1111111111", "Pie", "Gourmet", some "r2", 5⟩,
           ⟨"9999999999", "Dal", "Gourmet", some "r3", 9⟩] "9999999999"),
       [⟨"9999999999", "Tea", "Gourmet", some "r1", 1⟩,
        ⟨"1111111111", "Pie", "Gourmet", some "r2", 5⟩,
        ⟨"9999999999", "Dal", "Gourmet", some "r3", 9⟩]) ∧
    (∀ r ∈ listHistory
        [⟨"9999999999", "Tea", "Gourmet", some "r1", 1⟩,
         ⟨"1111111111", "Pie", "Gourmet", some "r2", 5⟩,
         ⟨"9999999999", "Dal", "Gourmet", some "r3", 9⟩] "9999999999",
      r.userPhone = "9999999999") ∧
    (listHistory
        [⟨"9999999999", "Tea", "Gourmet", some "r1", 1⟩,
         ⟨"1111111111", "Pie", "Gourmet", some "r2", 5⟩,
         ⟨"9999999999", "Dal", "Gourmet", some "r3", 9⟩] "9999999999").Pairwise
      (fun a b => b.createdAt ≤ a.createdAt) :=
  C8_history_scoped_sorted (fun _ => some ⟨1, "9999999999", "Ann"⟩)
    (some "Bearer t") _ ⟨1, "9999999999", "Ann"⟩ (by decide)

end KitchenAI
